import Mathlib

/-!
Shallow embedding of the reactive-async core of the hyperliquidx repository:
createResource (src/src/utils/resource.ts), definedEffect
(src/src/utils/defined-effect.ts) and useCandlesSnapshot
(src/unnamed/part_000).

Modelling conventions: every synchronous JavaScript block (an effect body, the
body of refetch, or the prefix of runFetcher up to its first await) is one pure
transition function on an explicit per-instance state record; the asynchronous
continuation of a fetch task (the code after the await, i.e. the then/catch
logic of runFetcher) is a separate transition applied when the task settles.
This matches the single-threaded cooperative scheduling model: reactive
propagation passes are atomic, and tasks rejoin only by one such completion
transition.
-/

namespace HyperliquidX

/-- JS values a source function can return: an actual source value of type A,
or one of the sentinels undefined, null, and a boolean.  Distinct constructors
model JS strict comparison across types, so that for a numeric source the
value 0 is a different JS value from false, null and undefined. -/
inductive JSVal (A : Type) where
  | undef
  | nullv
  | boolv (b : Bool)
  | val (a : A)
deriving DecidableEq

/-- The absence test of createResource (resource.ts lines 182-186 and 207-211),
negated: the fetch branch is taken when
sourceValue !== undefined && sourceValue !== null && sourceValue !== false. -/
def isAbsentSource {A : Type} : JSVal A → Bool
  | .undef => true
  | .nullv => true
  | .boolv false => true
  | _ => false

/-- ResourceState (resource.ts lines 5-12): optional data, loading flag,
optional error. -/
structure ResState (D E : Type) where
  data : Option D
  loading : Bool
  error : Option E
deriving DecidableEq

/-- The full mutable state of one createResource instance: the value of the
resourceState signal, the fetchId generation counter, the generation owning
the live abortController (none when abortController is null), the generations
whose controller has been aborted, and a count of assignments made to the
state signal (so that notification avoidance is observable). -/
structure ResourceSt (D E : Type) where
  st : ResState D E
  fetchId : Nat
  controller : Option Nat
  aborted : List Nat
  writes : Nat
deriving DecidableEq

/-- Initial instance state (resource.ts lines 130-135): the signal starts as
just loading false, fetchId is 0 and abortController is null. -/
def initResource {D E : Type} : ResourceSt D E :=
  { st := ⟨none, false, none⟩, fetchId := 0, controller := none, aborted := [], writes := 0 }

/-- Effect of abortController?.abort(): the live controller's generation, if
any, is marked aborted. -/
def abortCurrent {D E : Type} (s : ResourceSt D E) : ResourceSt D E :=
  match s.controller with
  | some g => { s with aborted := g :: s.aborted }
  | none => s

/-- The present-source branch (resource.ts lines 187-188, likewise 212-213)
followed by the synchronous prefix of runFetcher (lines 142-151): increment
fetchId, abort the previous controller, install a fresh controller owned by
the new generation, and write the Loading state, keeping peek().data and
clearing error. -/
def startFetch {D E : Type} (s : ResourceSt D E) : ResourceSt D E :=
  let s1 := { s with fetchId := s.fetchId + 1 }
  let s2 := abortCurrent s1
  { s2 with
    controller := some s1.fetchId
    st := { data := s2.st.data, loading := true, error := none }
    writes := s2.writes + 1 }

/-- The absent-source branch (resource.ts lines 189-201, likewise 214-226):
abort and drop the controller, increment fetchId to invalidate any in-flight
task, and write the idle state only when the current state is not already
idle (the guard is literally loading or data defined or error defined). -/
def resetAbsent {D E : Type} (s : ResourceSt D E) : ResourceSt D E :=
  let s1 := abortCurrent s
  let s2 := { s1 with controller := none, fetchId := s1.fetchId + 1 }
  if s2.st.loading || s2.st.data.isSome || s2.st.error.isSome then
    { s2 with st := ⟨none, false, none⟩, writes := s2.writes + 1 }
  else
    s2

/-- One run of the source effect (resource.ts lines 179-202); the body of
refetch (lines 205-227) performs the same dispatch on the same test. -/
def onSource {A D E : Type} (s : ResourceSt D E) (v : JSVal A) : ResourceSt D E :=
  if isAbsentSource v then resetAbsent s else startFetch s

/-- How a fetch task settles: resolution with data, or rejection with an error
value.  The isAbortError flag models the test
error instanceof Error && error.name === "AbortError" (resource.ts line 161). -/
inductive Outcome (D E : Type) where
  | success (d : D)
  | failure (e : E) (isAbortError : Bool)
deriving DecidableEq

/-- Whether the settlement is a cancellation signal. -/
def Outcome.isAbortSignal {D E : Type} : Outcome D E → Bool
  | .failure _ true => true
  | _ => false

/-- The ResourceState runFetcher writes when the guarded completion for a task
is actually applied (resource.ts lines 157 and 168-172). -/
def Outcome.resultState {D E : Type} : Outcome D E → ResState D E
  | .success d => ⟨some d, false, none⟩
  | .failure e _ => ⟨none, false, some e⟩

/-- Success continuation of runFetcher (resource.ts lines 154-159): the
Success state is written iff fetchId === currentFetchId and the task's own
controller has not been aborted; abortController is then nulled. -/
def completeSuccess {D E : Type} (s : ResourceSt D E) (g : Nat) (d : D) : ResourceSt D E :=
  if s.fetchId = g ∧ g ∉ s.aborted then
    { s with st := ⟨some d, false, none⟩, controller := none, writes := s.writes + 1 }
  else s

/-- Catch continuation of runFetcher (resource.ts lines 160-175): an
AbortError returns silently; otherwise the Failed state is written iff
fetchId === currentFetchId, and abortController is nulled. -/
def completeFailure {D E : Type} (s : ResourceSt D E) (g : Nat) (e : E)
    (isAbortError : Bool) : ResourceSt D E :=
  if isAbortError then s
  else if s.fetchId = g then
    { s with st := ⟨none, false, some e⟩, controller := none, writes := s.writes + 1 }
  else s

/-- Completion transition for the task of generation g settling with o. -/
def applyOutcome {D E : Type} (s : ResourceSt D E) (g : Nat) (o : Outcome D E) :
    ResourceSt D E :=
  match o with
  | .success d => completeSuccess s g d
  | .failure e b => completeFailure s g e b

/-- Invariant of every reachable instance state: an aborted controller's
generation is stale, and the live controller, if any, belongs to the current
generation.  It holds in the source because every abort() call is paired with
a fetchId increment inside the same synchronous block. -/
def Inv {D E : Type} (s : ResourceSt D E) : Prop :=
  (∀ g ∈ s.aborted, g < s.fetchId) ∧
    (s.controller = none ∨ s.controller = some s.fetchId)

instance {D E : Type} (s : ResourceSt D E) : Decidable (Inv s) := by
  unfold Inv; infer_instance

theorem abortCurrent_st {D E : Type} (s : ResourceSt D E) : (abortCurrent s).st = s.st := by
  simp only [abortCurrent]
  cases s.controller <;> rfl

theorem abortCurrent_fetchId {D E : Type} (s : ResourceSt D E) :
    (abortCurrent s).fetchId = s.fetchId := by
  simp only [abortCurrent]
  cases s.controller <;> rfl

theorem abortCurrent_writes {D E : Type} (s : ResourceSt D E) :
    (abortCurrent s).writes = s.writes := by
  simp only [abortCurrent]
  cases s.controller <;> rfl

theorem abortCurrent_aborted {D E : Type} (s : ResourceSt D E) :
    (abortCurrent s).aborted = s.controller.toList ++ s.aborted := by
  simp only [abortCurrent]
  cases s.controller <;> simp

theorem startFetch_fetchId {D E : Type} (s : ResourceSt D E) :
    (startFetch s).fetchId = s.fetchId + 1 := by
  simp only [startFetch]
  cases hc : s.controller <;> simp [abortCurrent, hc]

theorem startFetch_st {D E : Type} (s : ResourceSt D E) :
    (startFetch s).st = ⟨s.st.data, true, none⟩ := by
  simp only [startFetch]
  cases hc : s.controller <;> simp [abortCurrent, hc]

theorem startFetch_controller {D E : Type} (s : ResourceSt D E) :
    (startFetch s).controller = some (s.fetchId + 1) := by
  simp only [startFetch]

theorem startFetch_aborted {D E : Type} (s : ResourceSt D E) :
    (startFetch s).aborted = s.controller.toList ++ s.aborted := by
  simp only [startFetch]
  cases hc : s.controller <;> simp [abortCurrent, hc]

theorem resetAbsent_fetchId {D E : Type} (s : ResourceSt D E) :
    (resetAbsent s).fetchId = s.fetchId + 1 := by
  simp only [resetAbsent]
  split <;> simp [abortCurrent_fetchId]

theorem resetAbsent_controller {D E : Type} (s : ResourceSt D E) :
    (resetAbsent s).controller = none := by
  simp only [resetAbsent]
  split <;> rfl

theorem resetAbsent_aborted {D E : Type} (s : ResourceSt D E) :
    (resetAbsent s).aborted = s.controller.toList ++ s.aborted := by
  simp only [resetAbsent]
  split <;> simp [abortCurrent_aborted]

theorem applyOutcome_fetchId {D E : Type} (s : ResourceSt D E) (g : Nat) (o : Outcome D E) :
    (applyOutcome s g o).fetchId = s.fetchId := by
  cases o with
  | success d =>
      simp only [applyOutcome, completeSuccess]
      split <;> rfl
  | failure e b =>
      simp only [applyOutcome, completeFailure]
      split
      · rfl
      · split <;> rfl

theorem applyOutcome_aborted {D E : Type} (s : ResourceSt D E) (g : Nat) (o : Outcome D E) :
    (applyOutcome s g o).aborted = s.aborted := by
  cases o with
  | success d =>
      simp only [applyOutcome, completeSuccess]
      split <;> rfl
  | failure e b =>
      simp only [applyOutcome, completeFailure]
      split
      · rfl
      · split <;> rfl

/-- A completion whose generation is not the current one never changes the
instance state at all. -/
theorem applyOutcome_stale {D E : Type} {s : ResourceSt D E} {g : Nat}
    (o : Outcome D E) (h : g ≠ s.fetchId) : applyOutcome s g o = s := by
  cases o with
  | success d =>
      simp only [applyOutcome, completeSuccess]
      rw [if_neg]
      intro hc
      exact h hc.1.symm
  | failure e b =>
      simp only [applyOutcome, completeFailure]
      split
      · rfl
      · rw [if_neg]
        intro hc
        exact h hc.symm

/-- A current, uncancelled, non-abort completion writes exactly its outcome's
result state. -/
theorem applyOutcome_current {D E : Type} {s : ResourceSt D E} {g : Nat}
    {o : Outcome D E} (hg : s.fetchId = g) (hab : g ∉ s.aborted)
    (ho : o.isAbortSignal = false) : (applyOutcome s g o).st = o.resultState := by
  cases o with
  | success d =>
      simp only [applyOutcome, completeSuccess, Outcome.resultState]
      rw [if_pos ⟨hg, hab⟩]
  | failure e b =>
      cases b with
      | false =>
          simp only [applyOutcome, completeFailure, Outcome.resultState]
          rw [if_neg (by simp), if_pos hg]
      | true => simp [Outcome.isAbortSignal] at ho

theorem inv_initResource {D E : Type} : Inv (initResource (D := D) (E := E)) := by
  constructor
  · intro g hg
    simp [initResource] at hg
  · left; rfl

theorem inv_startFetch {D E : Type} {s : ResourceSt D E} (h : Inv s) :
    Inv (startFetch s) := by
  obtain ⟨h1, h2⟩ := h
  constructor
  · intro x hx
    rw [startFetch_aborted] at hx
    rw [startFetch_fetchId]
    rcases h2 with h2 | h2 <;> rw [h2] at hx <;> simp at hx
    · exact Nat.lt_succ_of_lt (h1 x hx)
    · rcases hx with rfl | hx
      · omega
      · exact Nat.lt_succ_of_lt (h1 x hx)
  · right
    rw [startFetch_controller, startFetch_fetchId]

theorem inv_resetAbsent {D E : Type} {s : ResourceSt D E} (h : Inv s) :
    Inv (resetAbsent s) := by
  obtain ⟨h1, h2⟩ := h
  constructor
  · intro x hx
    rw [resetAbsent_aborted] at hx
    rw [resetAbsent_fetchId]
    rcases h2 with h2 | h2 <;> rw [h2] at hx <;> simp at hx
    · exact Nat.lt_succ_of_lt (h1 x hx)
    · rcases hx with rfl | hx
      · omega
      · exact Nat.lt_succ_of_lt (h1 x hx)
  · left
    exact resetAbsent_controller s

theorem applyOutcome_controller {D E : Type} (s : ResourceSt D E) (g : Nat)
    (o : Outcome D E) :
    (applyOutcome s g o).controller = none ∨ (applyOutcome s g o).controller = s.controller := by
  cases o with
  | success d =>
      simp only [applyOutcome, completeSuccess]
      split
      · exact Or.inl rfl
      · exact Or.inr rfl
  | failure e b =>
      simp only [applyOutcome, completeFailure]
      split
      · exact Or.inr rfl
      · split
        · exact Or.inl rfl
        · exact Or.inr rfl

theorem inv_applyOutcome {D E : Type} {s : ResourceSt D E} (g : Nat) (o : Outcome D E)
    (h : Inv s) : Inv (applyOutcome s g o) := by
  obtain ⟨h1, h2⟩ := h
  constructor
  · intro x hx
    rw [applyOutcome_aborted] at hx
    rw [applyOutcome_fetchId]
    exact h1 x hx
  · rcases applyOutcome_controller s g o with hc | hc
    · exact Or.inl hc
    · rw [applyOutcome_fetchId, hc]
      exact h2

/-! Candle window: the seed and merge effects of useCandlesSnapshot
(src/unnamed/part_000 lines 79-132). -/

/-- Candle records come from the external SDK; the merge logic reads only the
close-time field T and otherwise copies records wholesale, so the model keeps
T together with a representative open time and close price. -/
structure Candle where
  t : Nat
  T : Nat
  c : Int
deriving DecidableEq

/-- The merge effect body (part_000 lines 108-129): a no-op while the window
is still empty; replace the last element when the incoming candle has the
same close time as the window's last element; otherwise push the candle and,
when the length now exceeds size, shift the element at index 0. -/
def mergeUpdate (snapshot : List Candle) (size : Nat) (current : Candle) : List Candle :=
  if snapshot.length = 0 then snapshot
  else if snapshot.getLast?.map (fun p => p.T) = some current.T then
    snapshot.dropLast ++ [current]
  else
    let pushed := snapshot ++ [current]
    if size < pushed.length then pushed.drop 1 else pushed

/-- Folding a stream of live updates through the merge effect. -/
def mergeFold (snapshot : List Candle) (size : Nat) (updates : List Candle) : List Candle :=
  updates.foldl (fun w u => mergeUpdate w size u) snapshot

/-- The state owned by the seed effect of useCandlesSnapshot: the value of the
snapshot signal, the captured size variable, and whether the seed effect is
still subscribed (armed becomes false when the callback calls its own
disposer). -/
structure SeedState where
  window : List Candle
  size : Nat
  armed : Bool
deriving DecidableEq

/-- One invocation of the seed effect callback (part_000 lines 92-106) on a
snapshot-resource state whose data field is the given value.  A disposed
effect is never invoked, so armed = false is an identity.  When the window is
already populated the callback disposes itself and returns; when the window
is empty and data is truthy (any array, including the empty array, is truthy
in JS) it stores size = data.length and copies data into the window. -/
def seedStep (st : SeedState) (data : Option (List Candle)) : SeedState :=
  if st.armed = false then st
  else if st.window.length ≠ 0 then { st with armed := false }
  else
    match data with
    | some d => { st with size := d.length, window := d }
    | none => st

/-- Folding a sequence of snapshot-resource data values through the seed
effect. -/
def seedFold (st : SeedState) (ds : List (Option (List Candle))) : SeedState :=
  ds.foldl seedStep st

/-- The handle state of one useCandlesSnapshot call: the seed effect's state
and whether the merge effect has been disposed. -/
structure HookSt where
  seed : SeedState
  mergeDisposed : Bool
deriving DecidableEq

/-- The dispose value returned by useCandlesSnapshot (part_000 line 131): it
is exactly the merge effect's disposer.  The seed effect's own disposer, the
binding named with an underscore, is not invoked by it, so the seed state is
left untouched. -/
def hookDispose (h : HookSt) : HookSt :=
  { h with mergeDisposed := true }

theorem mergeUpdate_length_le {w : List Candle} {C : Nat} (u : Candle)
    (h : w.length ≤ C) : (mergeUpdate w C u).length ≤ C := by
  simp only [mergeUpdate]
  split_ifs with h0 h1 h2
  · exact h
  · have hw : w ≠ [] := by
      intro hn
      rw [hn] at h0
      exact h0 rfl
    have : 1 ≤ w.length := List.length_pos.mpr hw
    simp [List.length_dropLast]
    omega
  · simp only [List.length_drop, List.length_append, List.length_singleton]
    omega
  · simp only [List.length_append, List.length_singleton] at h2 ⊢
    omega

theorem mergeFold_length_le (us : List Candle) {w : List Candle} {C : Nat}
    (h : w.length ≤ C) : (mergeFold w C us).length ≤ C := by
  induction us generalizing w with
  | nil => simpa [mergeFold] using h
  | cons u us ih =>
      have : mergeFold w C (u :: us) = mergeFold (mergeUpdate w C u) C us := by
        simp [mergeFold]
      rw [this]
      exact ih (mergeUpdate_length_le u h)

theorem mergeUpdate_nil (C : Nat) (u : Candle) : mergeUpdate [] C u = [] := by
  simp [mergeUpdate]

/-- While the window is populated, an invocation of the seed effect leaves
window and size untouched (it either already self-disposed or disposes now). -/
theorem seedStep_frozen {st : SeedState} (d : Option (List Candle))
    (hw : st.window ≠ []) :
    (seedStep st d).window = st.window ∧ (seedStep st d).size = st.size := by
  unfold seedStep
  split_ifs with h0 h1
  · exact ⟨rfl, rfl⟩
  · exact ⟨rfl, rfl⟩
  · exfalso
    exact h1 (by simpa [List.length_eq_zero] using hw)

theorem seedFold_frozen (ds : List (Option (List Candle))) {st : SeedState}
    (hw : st.window ≠ []) :
    (seedFold st ds).window = st.window ∧ (seedFold st ds).size = st.size := by
  induction ds generalizing st with
  | nil => exact ⟨rfl, rfl⟩
  | cons d ds ih =>
      have hstep := seedStep_frozen d hw
      have hne : (seedStep st d).window ≠ [] := by
        rw [hstep.1]
        exact hw
      have : seedFold st (d :: ds) = seedFold (seedStep st d) ds := by
        simp [seedFold]
      rw [this]
      obtain ⟨w1, s1⟩ := ih hne
      exact ⟨w1.trans hstep.1, s1.trans hstep.2⟩

/-! Conditional effect: definedEffect (src/src/utils/defined-effect.ts). -/

/-- Observable actions of one definedEffect instance: running a cleanup
function (identified by a tag) and invoking the callback with the defined
values of the tracked signals, recording the cleanup tag it returns, if any. -/
inductive DEEvent (V : Type) where
  | cleanupRun (id : Nat)
  | callbackRun (args : List V) (ret : Option Nat)
deriving DecidableEq

/-- Whether an event is a callback invocation. -/
def isCallbackRun {V : Type} : DEEvent V → Bool
  | .callbackRun _ _ => true
  | _ => false

/-- The events produced by the guarded cleanup call
if (typeof currentCleanup === "function") currentCleanup(). -/
def cleanupEvs {V : Type} (p : Option Nat) : List (DEEvent V) :=
  match p with
  | some i => [DEEvent.cleanupRun i]
  | none => []

/-- One run of the effect body of definedEffect (defined-effect.ts lines
76-90).  Inputs: the pending cleanup p (the value of currentCleanup), the
tracked signals' current values vs, and the cleanup tag r the callback would
return on this run (none when it returns nothing).  Output: the new value of
currentCleanup, and the invocations performed, in order: the pending cleanup
always runs first and is cleared; the callback runs only when no value is
undefined, and its return value becomes the pending cleanup. -/
def runBody {V : Type} (p : Option Nat) (vs : List (Option V)) (r : Option Nat) :
    Option Nat × List (DEEvent V) :=
  if vs.any (fun v => v.isNone) then (none, cleanupEvs p)
  else (r, cleanupEvs p ++ [DEEvent.callbackRun (vs.filterMap id) r])

/-- The dispose function returned by definedEffect (defined-effect.ts lines
92-97): it runs the pending cleanup, without clearing currentCleanup, then
disposes the underlying effect.  The first component is the value of
currentCleanup after the call. -/
def disposeBody {V : Type} (p : Option Nat) : Option Nat × List (DEEvent V) :=
  (p, cleanupEvs p)

/-! Claim theorems. -/

/-- C1: a fetch task's completion mutates the state cell only if its
generation is still current and its token is not cancelled; consequently, for
two source values issued in order (generations fetchId+1 then fetchId+2),
the final state after both completions settle is the second's result, in
either completion order.  The instance state s₀ before the two source changes
and the state s observed at an arbitrary completion both satisfy the
reachable-state invariant. -/
theorem C1_generation_guard_last_write_wins {D E : Type}
    (s₀ s : ResourceSt D E) (oa ob o₂ : Outcome D E) (g₂ : Nat)
    (hInv0 : Inv s₀) (hb : ob.isAbortSignal = false)
    (hInv : Inv s) (hmut : applyOutcome s g₂ o₂ ≠ s) :
    (applyOutcome (applyOutcome (startFetch (startFetch s₀)) (s₀.fetchId + 1) oa)
        (s₀.fetchId + 2) ob).st = ob.resultState
    ∧ (applyOutcome (applyOutcome (startFetch (startFetch s₀)) (s₀.fetchId + 2) ob)
        (s₀.fetchId + 1) oa).st = ob.resultState
    ∧ s.fetchId = g₂ ∧ g₂ ∉ s.aborted := by
  have hInv2 : Inv (startFetch (startFetch s₀)) := inv_startFetch (inv_startFetch hInv0)
  have hfid : (startFetch (startFetch s₀)).fetchId = s₀.fetchId + 2 := by
    rw [startFetch_fetchId, startFetch_fetchId]
  have hnotab : (s₀.fetchId + 2) ∉ (startFetch (startFetch s₀)).aborted := by
    intro hmem
    have hlt := hInv2.1 _ hmem
    rw [hfid] at hlt
    omega
  have hg : s.fetchId = g₂ := by
    by_contra hne
    exact hmut (applyOutcome_stale o₂ (fun hh => hne hh.symm))
  have hgab : g₂ ∉ s.aborted := by
    intro hmem
    have hlt := hInv.1 _ hmem
    omega
  refine ⟨?_, ?_, hg, hgab⟩
  · rw [applyOutcome_stale oa (by rw [hfid]; omega)]
    exact applyOutcome_current hfid hnotab hb
  · rw [applyOutcome_stale oa (by rw [applyOutcome_fetchId, hfid]; omega)]
    exact applyOutcome_current hfid hnotab hb

/-- Witness for C1 at the initial instance state with two successful fetches. -/
theorem C1_generation_guard_last_write_wins_witness :
    (applyOutcome
        (applyOutcome (startFetch (startFetch (initResource (D := Nat) (E := Nat)))) 1
          (Outcome.success 1))
        2 (Outcome.success 2)).st = (Outcome.success (2 : Nat)).resultState (E := Nat) :=
  (C1_generation_guard_last_write_wins initResource initResource (Outcome.success 1)
      (Outcome.success 2) (Outcome.success 3) 0 (by decide) rfl (by decide) (by decide)).1

/-- C4: starting a new fetch writes a Loading state that keeps the previous
data, clears error and sets loading; and a completion step changes the data
field only when it is a non-cancellation settlement of the still-current
generation. -/
theorem C4_loading_preserves_previous_data {D E : Type} (s : ResourceSt D E) (g : Nat)
    (o : Outcome D E) (hmut : (applyOutcome s g o).st.data ≠ s.st.data) :
    (startFetch s).st = ⟨s.st.data, true, none⟩
    ∧ s.fetchId = g ∧ o.isAbortSignal = false := by
  refine ⟨startFetch_st s, ?_, ?_⟩
  · by_contra hne
    rw [applyOutcome_stale o (fun hh => hne hh.symm)] at hmut
    exact hmut rfl
  · cases o with
    | success d => rfl
    | failure e b =>
        cases b with
        | false => rfl
        | true => exact absurd rfl hmut

/-- Witness for C4 at the initial state with a current successful completion. -/
theorem C4_loading_preserves_previous_data_witness :
    (startFetch (initResource (D := Nat) (E := Nat))).st = ⟨none, true, none⟩ :=
  (C4_loading_preserves_previous_data (initResource (D := Nat) (E := Nat)) 0
      (Outcome.success 5) (by decide)).1

theorem resetAbsent_st {D E : Type} (s : ResourceSt D E) :
    (resetAbsent s).st = ⟨none, false, none⟩ := by
  rcases hst : s.st with ⟨sd, sl, se⟩
  cases sd <;> cases sl <;> cases se <;>
    simp [resetAbsent, abortCurrent_st, hst]

theorem resetAbsent_writes {D E : Type} (s : ResourceSt D E) :
    (resetAbsent s).writes =
      (if s.st.loading || s.st.data.isSome || s.st.error.isSome then s.writes + 1
       else s.writes) := by
  simp only [resetAbsent, abortCurrent_st]
  split_ifs with h
  · simp [abortCurrent_writes]
  · simp [abortCurrent_writes]

/-- C5: an absent source value (undefined, null or false, on a source change
or on refetch) resets the resource to Idle with data and error cleared,
writing the state cell only when it is not already idle, and increments the
generation, so any in-flight task's completion afterwards is a no-op. -/
theorem C5_absent_source_resets_idle {A D E : Type} (s : ResourceSt D E) (v : JSVal A)
    (g : Nat) (o : Outcome D E) (hv : isAbsentSource v = true) (hg : g ≤ s.fetchId) :
    onSource s v = resetAbsent s
    ∧ (resetAbsent s).st = ⟨none, false, none⟩
    ∧ (resetAbsent s).fetchId = s.fetchId + 1
    ∧ (resetAbsent s).writes =
        (if s.st.loading || s.st.data.isSome || s.st.error.isSome then s.writes + 1
         else s.writes)
    ∧ applyOutcome (resetAbsent s) g o = resetAbsent s := by
  refine ⟨?_, resetAbsent_st s, resetAbsent_fetchId s, resetAbsent_writes s, ?_⟩
  · simp [onSource, hv]
  · exact applyOutcome_stale o (by rw [resetAbsent_fetchId]; omega)

/-- Witness for C5: source becomes undefined while a fetch of generation 1 is
in flight; its later success is discarded. -/
theorem C5_absent_source_resets_idle_witness :
    applyOutcome (resetAbsent (startFetch (initResource (D := Nat) (E := Nat)))) 1
        (Outcome.success 4)
      = resetAbsent (startFetch (initResource (D := Nat) (E := Nat))) :=
  (C5_absent_source_resets_idle (startFetch (initResource (D := Nat) (E := Nat)))
      (JSVal.undef : JSVal Int) 1 (Outcome.success 4) rfl (by decide)).2.2.2.2

/-- C6: a rejection that is a cancellation signal (AbortError) is discarded
silently and never reaches the error field; a non-cancellation rejection of
the still-current generation writes data undefined, loading false and the
error, without touching the generation counter (no automatic retry) and
nulling the controller; and a stale generation's rejection is a no-op, so the
error is surfaced at most once per generation. -/
theorem C6_failure_semantics {D E : Type} (s : ResourceSt D E) (g g₂ : Nat) (e : E)
    (hg : s.fetchId = g) (hg2 : g₂ ≠ s.fetchId) :
    completeFailure s g e true = s
    ∧ (completeFailure s g e false).st = ⟨none, false, some e⟩
    ∧ (completeFailure s g e false).fetchId = s.fetchId
    ∧ (completeFailure s g e false).controller = none
    ∧ completeFailure s g₂ e false = s := by
  refine ⟨rfl, ?_, ?_, ?_, ?_⟩
  · simp [completeFailure, hg]
  · simp [completeFailure, hg]
  · simp [completeFailure, hg]
  · exact applyOutcome_stale (Outcome.failure e false) hg2

/-- Witness for C6 with the in-flight generation 1 current and generation 0
stale. -/
theorem C6_failure_semantics_witness :
    (completeFailure (startFetch (initResource (D := Nat) (E := Nat))) 1 7 false).st
      = ⟨none, false, some 7⟩ :=
  (C6_failure_semantics (startFetch (initResource (D := Nat) (E := Nat))) 1 0 7
      rfl (by decide)).2.1

/-- C8 counterexample: with the numeric source value 0 the resource starts a
fetch and enters Loading with generation 1; it is not reset to Idle, because
the source test compares with JS strict inequality against undefined, null
and false only, and 0 is strictly different from all three. -/
theorem C8_counterexample_zero_starts_fetch :
    isAbsentSource (JSVal.val (0 : Int)) = false
    ∧ (onSource (initResource (D := Nat) (E := Nat)) (JSVal.val (0 : Int))).st.loading = true
    ∧ (onSource (initResource (D := Nat) (E := Nat)) (JSVal.val (0 : Int))).fetchId = 1
    ∧ (onSource (initResource (D := Nat) (E := Nat)) (JSVal.val (0 : Int))).st
        ≠ (⟨none, false, none⟩ : ResState Nat Nat) := by
  refine ⟨rfl, rfl, rfl, ?_⟩
  decide

/-- C8 (amended): every actual source value, including the number 0, is
treated as present: the generation increments and a fetch starts, entering
Loading; only undefined, null and false are absent sentinels. -/
theorem C8_zero_source_is_present {A D E : Type} (s : ResourceSt D E) (a : A) :
    onSource s (JSVal.val a) = startFetch s
    ∧ isAbsentSource (JSVal.val a) = false
    ∧ (onSource s (JSVal.val a)).st.loading = true
    ∧ (onSource s (JSVal.val a)).fetchId = s.fetchId + 1
    ∧ isAbsentSource (JSVal.undef : JSVal A) = true
    ∧ isAbsentSource (JSVal.nullv : JSVal A) = true
    ∧ isAbsentSource (JSVal.boolv false : JSVal A) = true
    ∧ isAbsentSource (JSVal.boolv true : JSVal A) = false := by
  have h1 : onSource s (JSVal.val a) = startFetch s := by
    simp [onSource, isAbsentSource]
  refine ⟨h1, rfl, ?_, ?_, rfl, rfl, rfl, rfl⟩
  · rw [h1, startFetch_st]
  · rw [h1, startFetch_fetchId]

/-- C2: for a seeded window of capacity C, a live update with the same close
time as the window's last element replaces only that last element (length
unchanged); otherwise the update is appended and, when length would exceed C,
the element at index 0 is evicted; hence length never exceeds C over any
sequence of live updates. -/
theorem C2_window_merge_rule (w : List Candle) (C : Nat) (u : Candle)
    (us : List Candle) (hw : w ≠ []) (hlen : w.length ≤ C) :
    (w.getLast?.map (fun p => p.T) = some u.T →
      mergeUpdate w C u = w.dropLast ++ [u] ∧ (mergeUpdate w C u).length = w.length)
    ∧ (w.getLast?.map (fun p => p.T) ≠ some u.T →
      mergeUpdate w C u =
        if C < (w ++ [u]).length then (w ++ [u]).drop 1 else w ++ [u])
    ∧ (mergeUpdate w C u).length ≤ C
    ∧ (mergeFold w C us).length ≤ C := by
  have hw0 : ¬ w.length = 0 := by simpa [List.length_eq_zero] using hw
  have hpos : 1 ≤ w.length := List.length_pos.mpr hw
  refine ⟨?_, ?_, mergeUpdate_length_le u hlen, mergeFold_length_le us hlen⟩
  · intro ht
    have he : mergeUpdate w C u = w.dropLast ++ [u] := by
      simp only [mergeUpdate]
      rw [if_neg hw0, if_pos ht]
    refine ⟨he, ?_⟩
    rw [he]
    simp only [List.length_append, List.length_dropLast, List.length_singleton]
    omega
  · intro ht
    simp only [mergeUpdate]
    rw [if_neg hw0, if_neg ht]

/-- Witness for C2: capacity 1 window, two live updates with fresh close
times keep the length at 1. -/
theorem C2_window_merge_rule_witness :
    (mergeFold [⟨0, 60, 1⟩] 1 [⟨60, 120, 2⟩, ⟨120, 180, 3⟩]).length ≤ 1 :=
  (C2_window_merge_rule [⟨0, 60, 1⟩] 1 ⟨60, 120, 2⟩ [⟨60, 120, 2⟩, ⟨120, 180, 3⟩]
      (by decide) (by decide)).2.2.2

/-- C3: once the window is non-empty, no later snapshot-resource state ever
changes the window contents or the captured capacity (the seed effect either
already disposed itself or disposes now without writing); and the seed
assignment happens only from an armed effect seeing an empty window and a
present data value, writing exactly that data and its length as capacity. -/
theorem C3_seed_only_once (st : SeedState) (ds : List (Option (List Candle)))
    (st₂ : SeedState) (d : Option (List Candle))
    (hw : st.window ≠ []) (hmut : (seedStep st₂ d).window ≠ st₂.window) :
    (seedFold st ds).window = st.window
    ∧ (seedFold st ds).size = st.size
    ∧ st₂.window = [] ∧ st₂.armed = true ∧ d.isSome = true
    ∧ (seedStep st₂ d).window = d.getD []
    ∧ (seedStep st₂ d).size = (d.getD []).length := by
  obtain ⟨hfw, hfs⟩ := seedFold_frozen ds hw
  refine ⟨hfw, hfs, ?_⟩
  by_cases ha : st₂.armed = false
  · exact absurd (by simp [seedStep, ha]) hmut
  · by_cases hlen : st₂.window.length ≠ 0
    · exact absurd (by simp [seedStep, ha, hlen]) hmut
    · cases d with
      | none => exact absurd (by simp [seedStep, ha, hlen]) hmut
      | some dd =>
          have hw2 : st₂.window = [] := by
            simpa [List.length_eq_zero] using hlen
          have harmed : st₂.armed = true := by
            simpa using ha
          refine ⟨hw2, harmed, rfl, ?_, ?_⟩
          · simp [seedStep, ha, hlen]
          · simp [seedStep, ha, hlen]

/-- Witness for C3: a seeded one-candle window survives a refetch that
delivers an empty then an absent data value. -/
theorem C3_seed_only_once_witness :
    (seedFold ⟨[⟨0, 60, 1⟩], 1, true⟩ [some [], none]).window = [⟨0, 60, 1⟩] :=
  (C3_seed_only_once ⟨[⟨0, 60, 1⟩], 1, true⟩ [some [], none] ⟨[], 0, true⟩
      (some [⟨0, 60, 1⟩]) (by decide) (by decide)).1

theorem mergeFold_nil (C : Nat) (us : List Candle) : mergeFold [] C us = [] := by
  induction us with
  | nil => rfl
  | cons u us ih =>
      have h : mergeFold ([] : List Candle) C (u :: us)
          = mergeFold (mergeUpdate [] C u) C us := by
        simp [mergeFold]
      rw [h, mergeUpdate_nil]
      exact ih

theorem seedFold_keeps_empty (ds : List (Option (List Candle)))
    (hds : ∀ d ∈ ds, d = none ∨ d = some []) :
    seedFold ⟨[], 0, true⟩ ds = ⟨[], 0, true⟩ := by
  induction ds with
  | nil => rfl
  | cons d ds ih =>
      have hd := hds d (by simp)
      have hstep : seedStep ⟨[], 0, true⟩ d = ⟨[], 0, true⟩ := by
        rcases hd with rfl | rfl <;> rfl
      have h : seedFold ⟨[], 0, true⟩ (d :: ds) = seedFold (seedStep ⟨[], 0, true⟩ d) ds := by
        simp [seedFold]
      rw [h, hstep]
      exact ih (fun x hx => hds x (by simp [hx]))

/-- C10: when the snapshot resolves with an empty array on an empty window,
the seed step fixes size 0 and writes the empty window, leaving the effect
armed (it never disposes itself); every live update on the empty window is a
no-op, and further seed invocations from the unchanged resource data (absent
or that same empty array) keep the window empty forever. -/
theorem C10_empty_snapshot_window_stays_empty (us : List Candle)
    (ds : List (Option (List Candle))) (hds : ∀ d ∈ ds, d = none ∨ d = some []) :
    seedStep ⟨[], 0, true⟩ (some []) = ⟨[], 0, true⟩
    ∧ mergeFold [] 0 us = []
    ∧ seedFold ⟨[], 0, true⟩ ds = ⟨[], 0, true⟩ := by
  exact ⟨rfl, mergeFold_nil 0 us, seedFold_keeps_empty ds hds⟩

/-- Witness for C10: two further resource states and one live update leave
the empty window and armed seed effect unchanged. -/
theorem C10_empty_snapshot_window_stays_empty_witness :
    seedFold ⟨[], 0, true⟩ [none, some []] = ⟨[], 0, true⟩ :=
  (C10_empty_snapshot_window_stays_empty [⟨0, 60, 1⟩] [none, some []] (by decide)).2.2

theorem anyNone_eq_not_all {V : Type} (vs : List (Option V)) :
    (vs.any fun v => v.isNone) = !(vs.all fun v => v.isSome) := by
  induction vs with
  | nil => rfl
  | cons v vs ih => cases v <;> simp [ih]

/-- C7: in each run of a definedEffect instance, the callback is invoked iff
every tracked signal's value is defined, receiving exactly the defined values
as arguments; the pending cleanup, if any, is invoked exactly once, strictly
before any callback invocation of that run, and the pending slot afterwards
holds only the new callback's return (so cleanup is cleared before the next
invocation and no two live side effects coexist); on disposal the pending
cleanup is invoked. -/
theorem C7_defined_effect_contract {V : Type} [DecidableEq V] (p : Option Nat)
    (vs : List (Option V)) (r : Option Nat) (i : Nat) :
    ((runBody p vs r).2.any isCallbackRun = vs.all fun v => v.isSome)
    ∧ (∀ a rr, DEEvent.callbackRun a rr ∈ (runBody p vs r).2 →
        a = vs.filterMap id ∧ rr = r)
    ∧ ((runBody p vs r).2.count (DEEvent.cleanupRun i) = if p = some i then 1 else 0)
    ∧ (∀ j, DEEvent.cleanupRun j ∈ (runBody p vs r).2 →
        (runBody p vs r).2.head? = some (DEEvent.cleanupRun j))
    ∧ (∀ a rr, DEEvent.callbackRun a rr ∈ (runBody p vs r).2 →
        (runBody p vs r).2.getLast? = some (DEEvent.callbackRun a rr))
    ∧ ((runBody p vs r).1 = if (vs.all fun v => v.isSome) then r else none)
    ∧ ((disposeBody (V := V) p).2.count (DEEvent.cleanupRun i) = if p = some i then 1 else 0) := by
  have hany : (vs.any fun v => v.isNone) = !(vs.all fun v => v.isSome) :=
    anyNone_eq_not_all vs
  rcases p with _ | j <;> cases hall : vs.all fun v => v.isSome
  · refine ⟨?_, ?_, ?_, ?_, ?_, ?_, ?_⟩ <;>
      simp [runBody, disposeBody, cleanupEvs, hany, hall, isCallbackRun]
  · refine ⟨?_, ?_, ?_, ?_, ?_, ?_, ?_⟩ <;>
      simp [runBody, disposeBody, cleanupEvs, hany, hall, isCallbackRun]
  · refine ⟨?_, ?_, ?_, ?_, ?_, ?_, ?_⟩ <;>
      simp [runBody, disposeBody, cleanupEvs, hany, hall, isCallbackRun, List.count_cons,
        List.count_nil]
  · refine ⟨?_, ?_, ?_, ?_, ?_, ?_, ?_⟩ <;>
      simp [runBody, disposeBody, cleanupEvs, hany, hall, isCallbackRun, List.count_cons,
        List.count_nil]

/-- Witness for C7: one pending cleanup and one undefined tracked value mean
no callback invocation in that run. -/
theorem C7_defined_effect_contract_witness :
    (runBody (some 0) [some (1 : Nat), none] (some 1)).2.any isCallbackRun
      = ([some (1 : Nat), none].all fun v => v.isSome) :=
  (C7_defined_effect_contract (some 0) [some (1 : Nat), none] (some 1) 0).1

/-- C9 at the failing inputs: the dispose returned by definedEffect runs the
still-pending cleanup on the second call exactly as on the first, because it
does not clear currentCleanup (so a double dispose is not the same as a
single one); and the dispose returned by useCandlesSnapshot leaves the seed
effect armed, so a snapshot resolving after disposal still writes the
window. -/
theorem C9_dispose_not_idempotent :
    (disposeBody (V := Nat) (some 0)).2 = [DEEvent.cleanupRun 0]
    ∧ (disposeBody (V := Nat) ((disposeBody (V := Nat) (some 0)).1)).2
        = [DEEvent.cleanupRun 0]
    ∧ (hookDispose ⟨⟨[], 0, true⟩, false⟩).seed.armed = true
    ∧ (seedStep (hookDispose ⟨⟨[], 0, true⟩, false⟩).seed (some [⟨0, 60, 1⟩])).window
        = [⟨0, 60, 1⟩] := by
  refine ⟨rfl, rfl, rfl, ?_⟩
  decide

end HyperliquidX
